import Mathlib

/-!
Verification development for the smart-bookmark-app repository.

The definitions below are a shallow embedding of the TypeScript sources:

* `src/app/api/verify-url/route.ts` — the reachability prober endpoint
  (`jsIncludes`, `isLocalSkip`, `verifyPOSTCore`, `verifyPOST`);
* `src/app/page.tsx` — `validateUrlFormat`, `addBookmark`,
  `updateVerificationStatus`, the realtime `postgres_changes` handler
  (`realtimeLoadCount`), `rotateCarousel`/`load` (carousel variant), and the
  `showToast` timing model (`toastAt`);
* the fetch-preview route (`src/unnamed/part_000`, POST handler) —
  `fetchPreviewPOST`.

Platform primitives that the code calls but that are not part of the
repository (the WHATWG `new URL` parser, `URL.origin` / relative-URL
resolution, `encodeURIComponent`, the network itself) are passed in as
explicit parameters or abstract outcome values, so every theorem is
quantified over their behaviour.
-/

namespace SmartBookmark

/-! ### Reachability prober, `src/app/api/verify-url/route.ts` -/

/-- Abstract outcome of the `fetch(url, { method: 'HEAD', ... })` call:
either a response with a status code, an abort by the 3 s timer
(`AbortError`), or any other network failure. -/
inductive ProbeOutcome
  | resp (status : Nat)
  | timeout
  | netError
  deriving DecidableEq, Repr

/-- Shape of the JSON value returned by the `/verify-url` handler, together
with the HTTP status of the response itself (`NextResponse.json` defaults
to 200 on every path of the handler). -/
structure VerifyResponse where
  httpStatus : Nat
  reachable : Bool
  status : Option Nat
  message : String
  warning : Option String
  deriving DecidableEq, Repr

/-- Model of JavaScript `s.trim()`: drop leading and trailing whitespace.
Phrased over the character list so that it reduces inside the kernel. -/
def jsTrim (s : String) : String :=
  String.mk (((s.data.dropWhile Char.isWhitespace).reverse.dropWhile
    Char.isWhitespace).reverse)

/-- Model of JavaScript `s.startsWith(pat)`. -/
def jsStartsWith (s pat : String) : Bool :=
  pat.data.isPrefixOf s.data

/-- Model of JavaScript `s.split(sep)` for a one-character separator:
split at every occurrence, keeping empty pieces (`"a.".split('.')` is
`["a", ""]`, `"".split('.')` is `[""]`). -/
def splitOnChar (c : Char) : List Char → List (List Char)
  | [] => [[]]
  | x :: xs =>
    let r := splitOnChar c xs
    if x = c then [] :: r
    else
      match r with
      | [] => [[x]]
      | y :: ys => (x :: y) :: ys

/-- Model of JavaScript `s.includes(pat)`: `pat` occurs as a contiguous
substring of `s`. -/
def jsIncludes (s pat : String) : Bool :=
  (List.range (s.data.length + 1)).any (fun i => pat.data.isPrefixOf (s.data.drop i))

/-- The guard on line 8 of `route.ts`:
`url.includes('localhost') || url.includes('127.0.0.1') || url.includes('192.168.')`.
Note that it tests the whole URL string, not its host component. -/
def isLocalSkip (url : String) : Bool :=
  jsIncludes url "localhost" || jsIncludes url "127.0.0.1" || jsIncludes url "192.168."

/-- Whether the handler issues the network `fetch` for a given body url:
the fetch on line 16 of `route.ts` runs exactly when the local-skip guard
on line 8 did not return early. -/
def probeIssued (url : String) : Bool :=
  !isLocalSkip url

/-- The fetch-and-respond block of `route.ts` (lines 12–45): the `HEAD`
request, the status mapping of lines 26–33, and the two catch branches.
Every path that gets past the local-skip guard runs exactly this block,
whatever value the guard inspected, so it is factored out and shared. -/
def fetchRespond (net : ProbeOutcome) : VerifyResponse :=
  match net with
  | ProbeOutcome.resp s =>
      let reachable := decide (200 ≤ s) && decide (s < 400)
      { httpStatus := 200, reachable := reachable, status := some s,
        message := if reachable then "URL is reachable" else "Server returned " ++ toString s,
        warning := none }
  | ProbeOutcome.timeout =>
      { httpStatus := 200, reachable := false, status := none,
        message := "Timeout - URL took too long to respond", warning := none }
  | ProbeOutcome.netError =>
      { httpStatus := 200, reachable := false, status := none,
        message := "Could not verify URL (CORS, DNS, or network error)",
        warning := some "URL may be valid but unreachable from server" }

/-- The `/verify-url` POST handler for a request whose body carried the
string `url`, with the network behaviour abstracted as `net`.  Mirrors
`route.ts` lines 7–46 branch by branch. -/
def verifyPOSTCore (url : String) (net : ProbeOutcome) : VerifyResponse :=
  if isLocalSkip url then
    { httpStatus := 200, reachable := true, status := none,
      message := "Local URL - skipped verification", warning := none }
  else
    fetchRespond net

/-- How the `url` field of the request body can look to the handler:
`badJson` (the `request.json()` call throws), `missing` (field absent,
`undefined` or `null`, so `.includes` throws a `TypeError`),
`nonIncludable` (a number, boolean or plain object, whose `.includes` is
not a function, again a `TypeError`), `arr` (a JSON array — arrays have a
native `Array.prototype.includes`, so line 8 does NOT throw on them; its
elements are modelled by their string values, since `includes` compares
whole elements with SameValueZero and only a string element can equal the
three literals), or an actual string. -/
inductive BodyUrl
  | badJson
  | missing
  | nonIncludable
  | arr (xs : List String)
  | str (s : String)
  deriving DecidableEq, Repr

/-- Line 8 of `route.ts` evaluated on an array `url`:
`Array.prototype.includes` tests whole-element equality, so the guard
fires exactly when some element is exactly "localhost", "127.0.0.1" or
"192.168.". -/
def arrLocalSkip (xs : List String) : Bool :=
  xs.contains "localhost" || xs.contains "127.0.0.1" || xs.contains "192.168."

/-- The full `/verify-url` POST handler over an arbitrary request body.
For `badJson`, `missing` and `nonIncludable` the thrown exception lands in
the catch-all on lines 34–46, which is not the `AbortError` branch, so the
generic network-error response is returned.  An array `url` does not
throw: if `arrLocalSkip` fires the skip response is returned, otherwise
the handler reaches `fetch(url)` (the platform stringifies the array) and
the outcome of that call — including a URL-parse rejection, which the
catch-all turns into the network-error response — is abstracted by
`net`. -/
def verifyPOST (body : BodyUrl) (net : ProbeOutcome) : VerifyResponse :=
  match body with
  | BodyUrl.str s => verifyPOSTCore s net
  | BodyUrl.arr xs =>
      if arrLocalSkip xs then
        { httpStatus := 200, reachable := true, status := none,
          message := "Local URL - skipped verification", warning := none }
      else
        fetchRespond net
  | _ =>
      { httpStatus := 200, reachable := false, status := none,
        message := "Could not verify URL (CORS, DNS, or network error)",
        warning := some "URL may be valid but unreachable from server" }

/-! ### URL Qualifier, `validateUrlFormat` (`src/app/page.tsx` lines 56–69) -/

/-- The two components of the parsed `new URL(...)` object that
`validateUrlFormat` reads.  Per WHATWG, `protocol` keeps its trailing
colon (for instance "https:"). -/
structure URLParts where
  protocol : String
  hostname : String
  deriving DecidableEq, Repr

/-- `validateUrlFormat`, parametrised by the platform URL parser
(`new URL(s)` succeeding is `parseURL s = some u`, throwing is `none`). -/
def validateUrlFormat (parseURL : String → Option URLParts) (urlString : String) : Bool :=
  if jsTrim urlString = "" then false
  else
    match parseURL urlString with
    | none => false
    | some url =>
      if url.protocol ≠ "http:" ∧ url.protocol ≠ "https:" then false
      else if !(url.hostname.data.contains '.') then false
      else
        let parts := splitOnChar '.' url.hostname.data
        let tld := parts.getLastD []
        if tld.length < 2 then false else true

/-! ### View State Coordinator: `addBookmark` (`src/app/page.tsx` lines 245–293) -/

/-- Row shape of the `bookmarks` table as declared in `page.tsx`. -/
structure Bookmark where
  id : Nat
  user_id : String
  url : String
  title : String
  created_at : String
  verified : Option Bool
  verification_message : Option String
  verified_at : Option String
  deriving DecidableEq, Repr

/-- Toast severity used by `showToast`. -/
inductive ToastType
  | success
  | error
  | warning
  deriving DecidableEq, Repr

/-- Result shape of the client-side `verifyUrlReachable` wrapper. -/
structure ProbeResult where
  reachable : Bool
  message : String
  deriving DecidableEq, Repr

/-- Externally visible actions performed by `addBookmark`, in program
order: the blocking reachability probe, the supabase `insert`, a
`showToast` call, and the fire-and-forget background verification job
scheduled by `verifyUrlReachable(savedUrl).then(...)`. -/
inductive Eff
  | probe (url : String)
  | insert (url title : String)
  | toast (message : String) (ty : ToastType)
  | bgVerify (url : String) (bookmarkId : Nat)
  deriving DecidableEq, Repr

/-- The component state that `addBookmark` reads and writes.  `items` is
the in-memory bookmark list; `addBookmark` never calls `setItems`, which
the theorems below make explicit. -/
structure AddSt where
  items : List Bookmark
  url : String
  title : String
  urlError : String
  verifying : Bool
  strictMode : Bool
  deriving DecidableEq, Repr

/-- `addBookmark` (`page.tsx` lines 245–293).  The probe result and the
insert result stand for the values the awaited calls would produce; the
returned effect list records, in order, which calls were actually made. -/
def addBookmark (parseURL : String → Option URLParts) (st : AddSt)
    (probeRes : ProbeResult) (insertRes : Except String Bookmark) :
    AddSt × List Eff :=
  if jsTrim st.url = "" ∨ jsTrim st.title = "" then
    (st, [Eff.toast "Title and URL required" ToastType.warning])
  else if validateUrlFormat parseURL st.url = false then
    (st, [Eff.toast "Invalid URL format" ToastType.error])
  else if st.strictMode = true ∧ probeRes.reachable = false then
    ({ st with verifying := false,
               urlError := "URL may not be reachable: " ++ probeRes.message },
     [Eff.probe st.url,
      Eff.toast ("URL verification failed: " ++ probeRes.message) ToastType.error])
  else
    let preEffs := if st.strictMode then [Eff.probe st.url] else []
    let st1 := if st.strictMode then { st with verifying := false } else st
    match insertRes with
    | Except.error e =>
        (st1, preEffs ++ [Eff.insert st.url st.title,
                          Eff.toast ("Error adding bookmark: " ++ e) ToastType.error])
    | Except.ok data =>
        ({ st1 with url := "", title := "", urlError := "" },
         preEffs ++ [Eff.insert st.url st.title,
                     Eff.toast "Bookmark added successfully" ToastType.success]
                 ++ (if st.strictMode = false then [Eff.bgVerify st.url data.id] else []))

/-- The update payload written by `updateVerificationStatus`
(`page.tsx` lines 101–114): a single `update ... eq('id', bookmarkId)`
call setting the three verification columns. -/
structure VerificationUpdate where
  id : Nat
  verified : Bool
  verification_message : String
  verified_at : String
  deriving DecidableEq, Repr

/-- `updateVerificationStatus(bookmarkId, reachable, message)`; `now`
stands for `new Date().toISOString()`. -/
def updateVerificationStatus (bookmarkId : Nat) (reachable : Bool)
    (message : String) (now : String) : VerificationUpdate :=
  { id := bookmarkId, verified := reachable,
    verification_message := message, verified_at := now }

/-- Completion of the background job scheduled as
`verifyUrlReachable(savedUrl).then(({reachable, message}) =>
updateVerificationStatus(bookmarkId, reachable, message))`. -/
def runBgVerify (bookmarkId : Nat) (probeRes : ProbeResult) (now : String) :
    VerificationUpdate :=
  updateVerificationStatus bookmarkId probeRes.reachable probeRes.message now

/-! ### Change Feed Listener (`src/app/page.tsx` lines 172–192) -/

/-- Event type of a `postgres_changes` payload. -/
inductive RTEvent
  | INSERT
  | UPDATE
  | DELETE
  deriving DecidableEq, Repr

/-- The fields of the payload that the handler reads: the event type and
`payload.new?.user_id` (absent for DELETE events, where the row is gone). -/
structure RTPayload where
  eventType : RTEvent
  newUserId : Option String
  deriving DecidableEq, Repr

/-- Number of `load()` calls the realtime handler makes for one incoming
payload, given the current session's user id (`currentUserId` captured by
`init`). -/
def realtimeLoadCount (currentUserId : String) (p : RTPayload) : Nat :=
  match p.eventType with
  | RTEvent.INSERT => if p.newUserId = some currentUserId then 1 else 0
  | RTEvent.UPDATE => if p.newUserId = some currentUserId then 1 else 0
  | RTEvent.DELETE => 1

/-! ### Selection cursor (carousel variant of `page.tsx`, lines 705–936) -/

/-- Carousel view state: the bookmark list and the selection cursor.
`selectedIndex` is an `Int` because the JavaScript arithmetic in
`rotateCarousel` can leave the number range of valid indices. -/
structure CarouselSt where
  items : List Bookmark
  selectedIndex : Int
  deriving DecidableEq, Repr

/-- Direction argument of `rotateCarousel`. -/
inductive Dir
  | left
  | right
  deriving DecidableEq, Repr

/-- `rotateCarousel` (`page.tsx` lines 928–936). -/
def rotateCarousel (st : CarouselSt) (dir : Dir) : CarouselSt :=
  { st with selectedIndex :=
      match dir with
      | Dir.left =>
          if st.selectedIndex = 0 then (st.items.length : Int) - 1
          else st.selectedIndex - 1
      | Dir.right =>
          if st.selectedIndex = (st.items.length : Int) - 1 then 0
          else st.selectedIndex + 1 }

/-- Effect of a completed `load()` (`page.tsx` lines 756–769) on the
carousel state: `setItems(data)` replaces the list and nothing touches
`selectedIndex`. -/
def loadSet (st : CarouselSt) (newItems : List Bookmark) : CarouselSt :=
  { items := newItems, selectedIndex := st.selectedIndex }

/-- States the carousel view can actually be in: the initial state
(`useState([])`, `useState(0)`) closed under rotations and reloads. -/
inductive CarouselReachable : CarouselSt → Prop
  | init : CarouselReachable { items := [], selectedIndex := 0 }
  | rotate (st : CarouselSt) (dir : Dir) :
      CarouselReachable st → CarouselReachable (rotateCarousel st dir)
  | load (st : CarouselSt) (newItems : List Bookmark) :
      CarouselReachable st → CarouselReachable (loadSet st newItems)

/-- A concrete bookmark row, used by the concrete counterexamples. -/
def sampleBookmark (i : Nat) : Bookmark :=
  { id := i, user_id := "u1", url := "https://example.com", title := "Example",
    created_at := "2024-01-01", verified := none,
    verification_message := none, verified_at := none }

/-! ### Toast timing, `showToast` (`src/app/page.tsx` lines 50–53) -/

/-- Mutations of the toast state produced by a list of `showToast` calls,
times in milliseconds: each call at time `s` with message `m` sets the
toast to `some m` at `s` and schedules `setToast(null)` at `s + 4000`.
The timer is never cleared, so every scheduled pair is emitted. -/
def toastEvents (shows : List (Nat × String)) : List (Nat × Option String) :=
  shows.flatMap (fun p => [(p.1, some p.2), (p.1 + 4000, (none : Option String))])

/-- One step of scanning for the chronologically last mutation not after
time `t`: keep the later of the accumulator and the next event
(later-listed events win ties, fixing the unspecified same-instant
ordering of the event loop deterministically). -/
def lastEventStep (t : Nat) (acc : Option (Nat × Option String))
    (e : Nat × Option String) : Option (Nat × Option String) :=
  if e.1 ≤ t then
    match acc with
    | none => some e
    | some b => if b.1 ≤ e.1 then some e else some b
  else acc

/-- The chronologically last state mutation applied by time `t`. -/
def lastEventAt (evs : List (Nat × Option String)) (t : Nat) :
    Option (Nat × Option String) :=
  evs.foldl (lastEventStep t) none

/-- The toast visible at time `t` after the `showToast` calls in `shows`:
the value written by the chronologically last mutation, `none` before any
event. -/
def toastAt (shows : List (Nat × String)) (t : Nat) : Option String :=
  match lastEventAt (toastEvents shows) t with
  | none => none
  | some e => e.2

/-! ### Preview Fetcher, fetch-preview POST handler (`src/unnamed/part_000` lines 660–744) -/

/-- What the cheerio selector chains of the handler would extract from the
fetched document: `attr('content')` / `attr('href')` give `none` when the
tag or attribute is absent, while `$('title').text()` gives the empty
string. -/
structure ExtractedMeta where
  ogTitle : Option String
  twitterTitle : Option String
  docTitle : String
  ogDescription : Option String
  twitterDescription : Option String
  metaDescription : Option String
  ogImage : Option String
  twitterImage : Option String
  iconHref : Option String
  shortcutIconHref : Option String
  appleTouchIconHref : Option String
  deriving DecidableEq, Repr

/-- Abstract outcome of the page `GET`: a response (status plus what the
extraction would find in its body), the 5 s abort, or another failure. -/
inductive FetchOutcome
  | resp (status : Nat) (meta : ExtractedMeta)
  | timeout
  | netError
  deriving DecidableEq, Repr

/-- The `previewData` record returned on success. -/
structure PreviewData where
  title : String
  description : String
  image : String
  favicon : String
  deriving DecidableEq, Repr

/-- Result of the handler: a success payload (HTTP 200) or an error
payload `{error}` with its HTTP status. -/
inductive PreviewResult
  | ok (data : PreviewData)
  | err (status : Nat) (msg : String)
  deriving DecidableEq, Repr

/-- JavaScript `a || b` for `a : string | undefined`: `b` when `a` is
`undefined` or the empty string. -/
def jsOrS (a : Option String) (b : String) : String :=
  match a with
  | some s => if s = "" then b else s
  | none => b

/-- The `previewData` record built on the success path of the handler:
the fallback chains of the selector extraction, relative-URL resolution of
image and favicon against the page origin, and the screenshot-service
fallback when no image was found.  `origin` models `new URL(u).origin`,
`resolveUrl rel base` models `new URL(rel, base).href`, and `enc` models
`encodeURIComponent`. -/
def previewSuccessData (origin : String → String)
    (resolveUrl : String → String → String) (enc : String → String)
    (u : String) (meta : ExtractedMeta) : PreviewData :=
  let title := jsOrS meta.ogTitle (jsOrS meta.twitterTitle meta.docTitle)
  let description :=
    jsOrS meta.ogDescription
      (jsOrS meta.twitterDescription (jsOrS meta.metaDescription ""))
  let image0 := jsOrS meta.ogImage (jsOrS meta.twitterImage "")
  let favicon0 :=
    jsOrS meta.iconHref
      (jsOrS meta.shortcutIconHref (jsOrS meta.appleTouchIconHref ""))
  let image1 :=
    if image0 ≠ "" ∧ jsStartsWith image0 "http" = false then
      resolveUrl image0 (origin u)
    else image0
  let favicon1 :=
    if favicon0 ≠ "" ∧ jsStartsWith favicon0 "http" = false then
      resolveUrl favicon0 (origin u)
    else favicon0
  let image2 :=
    if image1 = "" then
      "https://api.screenshotmachine.com/?key=YOUR_API_KEY&url="
        ++ enc u ++ "&dimension=1024x768"
    else image1
  { title := title, description := description,
    image := image2, favicon := favicon1 }

/-- The fetch-preview POST handler; `url` is the body's `url` field
(`none` when absent or otherwise falsy, along with the empty string). -/
def fetchPreviewPOST (origin : String → String)
    (resolveUrl : String → String → String) (enc : String → String)
    (url : Option String) (outcome : FetchOutcome) : PreviewResult :=
  match url with
  | none => PreviewResult.err 400 "URL required"
  | some u =>
    if u = "" then PreviewResult.err 400 "URL required"
    else
      match outcome with
      | FetchOutcome.timeout =>
          PreviewResult.err 408 "Timeout - page took too long to load"
      | FetchOutcome.netError =>
          PreviewResult.err 500 "Failed to fetch preview data"
      | FetchOutcome.resp status meta =>
        if status < 200 ∨ 300 ≤ status then
          PreviewResult.err 400 ("Failed to fetch: " ++ toString status)
        else
          PreviewResult.ok (previewSuccessData origin resolveUrl enc u meta)

/-- An extraction result with nothing found anywhere. -/
def emptyMeta : ExtractedMeta :=
  { ogTitle := none, twitterTitle := none, docTitle := "",
    ogDescription := none, twitterDescription := none, metaDescription := none,
    ogImage := none, twitterImage := none,
    iconHref := none, shortcutIconHref := none, appleTouchIconHref := none }

/-! ### Spec-side host predicates for the loopback special case (claim about `route.ts` line 8) -/

/-- Modelled from the spec: WHATWG-style host extraction for plain
http(s) URLs ("loopback/private-network hosts" in §4.2 refers to the URL's
host component).  Used only to state the host-based reading of the claim,
to be compared with the substring test the source performs. -/
def hostOf (url : String) : String :=
  let rest :=
    if jsStartsWith url "https://" then url.data.drop 8
    else if jsStartsWith url "http://" then url.data.drop 7
    else url.data
  String.mk (rest.takeWhile (fun c => !(c = '/' || c = ':' || c = '?' || c = '#')))

/-- Modelled from the spec: the loopback/private-network hosts named in
§4.2 — `localhost`, `127.0.0.1`, and anything matching `192.168.*`. -/
def hostIsPrivate (h : String) : Bool :=
  h = "localhost" || h = "127.0.0.1" || jsStartsWith h "192.168."

/-! ### Concrete data used by witnesses and counterexamples -/

/-- A concrete URL parser covering the handful of strings the witnesses
use, with the values the WHATWG parser assigns to them. -/
def sampleParse : String → Option URLParts := fun s =>
  if s = "https://example.com" then some { protocol := "https:", hostname := "example.com" }
  else if s = "ftp://example.com" then some { protocol := "ftp:", hostname := "example.com" }
  else if s = "http://intranet" then some { protocol := "http:", hostname := "intranet" }
  else if s = "http://example.c" then some { protocol := "http:", hostname := "example.c" }
  else none

/-- A concrete coordinator state with strict mode on. -/
def stStrict : AddSt :=
  { items := [sampleBookmark 1], url := "https://example.com", title := "Example",
    urlError := "", verifying := false, strictMode := true }

/-- The same state with strict mode off. -/
def stLoose : AddSt :=
  { stStrict with strictMode := false }

/-- Recogniser for background-verification effects, used to count them. -/
def isBgVerify : Eff → Bool
  | Eff.bgVerify _ _ => true
  | _ => false

/-! ## Claim theorems -/

/-- C1: with strict mode enabled, when the prober reports
`reachable = false`, `addBookmark` issues no insert, leaves the in-memory
bookmark list unchanged, and surfaces the probe's message as a blocking
error toast. -/
theorem addBookmark_strict_blocked (parseURL : String → Option URLParts)
    (st : AddSt) (probeRes : ProbeResult) (insertRes : Except String Bookmark)
    (hstrict : st.strictMode = true) (hreach : probeRes.reachable = false)
    (hu : jsTrim st.url ≠ "") (ht : jsTrim st.title ≠ "")
    (hv : validateUrlFormat parseURL st.url = true) :
    (∀ u ti, Eff.insert u ti ∉ (addBookmark parseURL st probeRes insertRes).2) ∧
    (addBookmark parseURL st probeRes insertRes).1.items = st.items ∧
    Eff.toast ("URL verification failed: " ++ probeRes.message) ToastType.error
      ∈ (addBookmark parseURL st probeRes insertRes).2 := by
  simp [addBookmark, hstrict, hreach, hu, ht, hv]

/-- Witness for C1 at a concrete state, parser, probe result and insert
result. -/
theorem addBookmark_strict_blocked_witness :
    (∀ u ti, Eff.insert u ti ∉
      (addBookmark sampleParse stStrict { reachable := false, message := "dead" }
        (Except.ok (sampleBookmark 2))).2) ∧
    (addBookmark sampleParse stStrict { reachable := false, message := "dead" }
        (Except.ok (sampleBookmark 2))).1.items = stStrict.items ∧
    Eff.toast ("URL verification failed: " ++ "dead") ToastType.error
      ∈ (addBookmark sampleParse stStrict { reachable := false, message := "dead" }
          (Except.ok (sampleBookmark 2))).2 :=
  addBookmark_strict_blocked sampleParse stStrict
    { reachable := false, message := "dead" } (Except.ok (sampleBookmark 2))
    rfl rfl (by decide) (by decide) (by decide)

/-- C2: the realtime handler triggers exactly one `load()` for every
DELETE payload regardless of owner, and for INSERT/UPDATE payloads it
triggers a `load()` exactly when `payload.new?.user_id` equals the
session's user id. -/
theorem realtime_load_policy :
    (∀ (uid : String) (nid : Option String),
      realtimeLoadCount uid { eventType := RTEvent.DELETE, newUserId := nid } = 1) ∧
    (∀ (uid : String) (p : RTPayload),
      p.eventType = RTEvent.INSERT ∨ p.eventType = RTEvent.UPDATE →
      (realtimeLoadCount uid p = 1 ↔ p.newUserId = some uid)) := by
  constructor
  · intro uid nid
    rfl
  · intro uid p hp
    by_cases hn : p.newUserId = some uid
    · rcases hp with h | h <;> simp [realtimeLoadCount, h, hn]
    · rcases hp with h | h <;> simp [realtimeLoadCount, h, hn]

/-- Witness for C2: an UPDATE for another owner triggers no load, a
DELETE with no owner metadata triggers one. -/
theorem realtime_load_policy_witness :
    realtimeLoadCount "u1" { eventType := RTEvent.DELETE, newUserId := none } = 1 ∧
    (realtimeLoadCount "u1" { eventType := RTEvent.UPDATE, newUserId := some "u2" } = 1 ↔
      (some "u2" : Option String) = some "u1") :=
  ⟨realtime_load_policy.1 "u1" none,
   realtime_load_policy.2 "u1" { eventType := RTEvent.UPDATE, newUserId := some "u2" }
     (Or.inr rfl)⟩

/-- C3: with strict mode disabled and valid inputs, `addBookmark` inserts
first (no probe precedes or occurs at all), then emits the success toast,
then schedules exactly one background verification; the completion of
that job issues one separate update writing `verified`,
`verification_message` and `verified_at` for the inserted row. -/
theorem addBookmark_nonstrict_background (parseURL : String → Option URLParts)
    (st : AddSt) (probeRes : ProbeResult) (bm : Bookmark)
    (hstrict : st.strictMode = false)
    (hu : jsTrim st.url ≠ "") (ht : jsTrim st.title ≠ "")
    (hv : validateUrlFormat parseURL st.url = true) :
    (addBookmark parseURL st probeRes (Except.ok bm)).2 =
      [Eff.insert st.url st.title,
       Eff.toast "Bookmark added successfully" ToastType.success,
       Eff.bgVerify st.url bm.id] ∧
    (∀ u, Eff.probe u ∉ (addBookmark parseURL st probeRes (Except.ok bm)).2) ∧
    ((addBookmark parseURL st probeRes (Except.ok bm)).2.countP
      (fun e => isBgVerify e) = 1) ∧
    (∀ (pr : ProbeResult) (now : String),
      runBgVerify bm.id pr now =
        { id := bm.id, verified := pr.reachable,
          verification_message := pr.message, verified_at := now }) := by
  refine ⟨?_, ?_, ?_, ?_⟩
  · simp [addBookmark, hstrict, hu, ht, hv]
  · simp [addBookmark, hstrict, hu, ht, hv]
  · simp [addBookmark, hstrict, hu, ht, hv, isBgVerify]
  · intro pr now
    rfl

/-- Witness for C3 at a concrete non-strict state. -/
theorem addBookmark_nonstrict_background_witness :
    (addBookmark sampleParse stLoose { reachable := true, message := "ok" }
      (Except.ok (sampleBookmark 2))).2 =
      [Eff.insert stLoose.url stLoose.title,
       Eff.toast "Bookmark added successfully" ToastType.success,
       Eff.bgVerify stLoose.url (sampleBookmark 2).id] ∧
    (∀ u, Eff.probe u ∉ (addBookmark sampleParse stLoose
      { reachable := true, message := "ok" } (Except.ok (sampleBookmark 2))).2) ∧
    ((addBookmark sampleParse stLoose { reachable := true, message := "ok" }
      (Except.ok (sampleBookmark 2))).2.countP (fun e => isBgVerify e) = 1) ∧
    (∀ (pr : ProbeResult) (now : String),
      runBgVerify (sampleBookmark 2).id pr now =
        { id := (sampleBookmark 2).id, verified := pr.reachable,
          verification_message := pr.message, verified_at := now }) :=
  addBookmark_nonstrict_background sampleParse stLoose
    { reachable := true, message := "ok" } (sampleBookmark 2)
    rfl (by decide) (by decide) (by decide)

/-- C10 counterexample: not every non-string `url` reaches the catch-all.
A JSON array has a native `Array.prototype.includes`, so for the body
with `url = ["localhost"]` line 8 evaluates to `true` without throwing and
the handler answers `reachable = true` with the skip message — not the
could-not-verify response the claim requires for every non-string body. -/
theorem verify_badBody_cex :
    ¬ (∀ (body : BodyUrl) (net : ProbeOutcome),
        (∀ s, body ≠ BodyUrl.str s) →
        verifyPOST body net =
          { httpStatus := 200, reachable := false, status := none,
            message := "Could not verify URL (CORS, DNS, or network error)",
            warning := some "URL may be valid but unreachable from server" }) := by
  intro h
  have h2 := h (BodyUrl.arr ["localhost"]) ProbeOutcome.timeout
    (by intro s hc; exact BodyUrl.noConfusion hc)
  exact absurd h2 (by decide)

/-- C10 amended: the endpoint is total — HTTP 200 for every body shape and
every network outcome.  Unparsable JSON, an absent/null `url`, and
non-string values without a `.includes` (numbers, booleans, objects) throw
a `TypeError` that the catch-all turns into the could-not-verify response;
a JSON-array `url`, however, does not throw: if one of its elements is
exactly "localhost", "127.0.0.1" or "192.168." the handler answers
`reachable = true` with the skip message, and otherwise it proceeds to the
ordinary fetch-and-respond block, every outcome of which is still a normal
200 response. -/
theorem verify_badBody_amended (body : BodyUrl) (net : ProbeOutcome) :
    (verifyPOST body net).httpStatus = 200 ∧
    (body = BodyUrl.badJson ∨ body = BodyUrl.missing ∨ body = BodyUrl.nonIncludable →
      verifyPOST body net =
        { httpStatus := 200, reachable := false, status := none,
          message := "Could not verify URL (CORS, DNS, or network error)",
          warning := some "URL may be valid but unreachable from server" }) ∧
    (∀ xs, body = BodyUrl.arr xs → arrLocalSkip xs = true →
      verifyPOST body net =
        { httpStatus := 200, reachable := true, status := none,
          message := "Local URL - skipped verification", warning := none }) ∧
    (∀ xs, body = BodyUrl.arr xs → arrLocalSkip xs = false →
      verifyPOST body net = fetchRespond net) := by
  refine ⟨?_, ?_, ?_, ?_⟩
  · cases body with
    | str s =>
      by_cases hl : isLocalSkip s <;> cases net <;>
        simp [verifyPOST, verifyPOSTCore, fetchRespond, hl]
    | arr xs =>
      by_cases ha : arrLocalSkip xs <;> cases net <;>
        simp [verifyPOST, fetchRespond, ha]
    | badJson => rfl
    | missing => rfl
    | nonIncludable => rfl
  · intro hb
    rcases hb with h | h | h <;> subst h <;> rfl
  · intro xs hb ha
    subst hb
    simp [verifyPOST, ha]
  · intro xs hb ha
    subst hb
    simp [verifyPOST, ha]

/-- Witness for the amended C10: a missing `url` gets the catch-all
response, the array ["localhost"] is skipped as local, and an array whose
only element is a public URL (not equal to any of the three literals)
falls through to the ordinary fetch branch. -/
theorem verify_badBody_amended_witness :
    verifyPOST BodyUrl.missing ProbeOutcome.timeout =
      { httpStatus := 200, reachable := false, status := none,
        message := "Could not verify URL (CORS, DNS, or network error)",
        warning := some "URL may be valid but unreachable from server" } ∧
    verifyPOST (BodyUrl.arr ["localhost"]) ProbeOutcome.timeout =
      { httpStatus := 200, reachable := true, status := none,
        message := "Local URL - skipped verification", warning := none } ∧
    verifyPOST (BodyUrl.arr ["https://example.com"]) ProbeOutcome.netError =
      fetchRespond ProbeOutcome.netError ∧
    (verifyPOST (BodyUrl.arr ["https://example.com"]) ProbeOutcome.netError).httpStatus = 200 :=
  ⟨(verify_badBody_amended BodyUrl.missing ProbeOutcome.timeout).2.1
      (Or.inr (Or.inl rfl)),
   (verify_badBody_amended (BodyUrl.arr ["localhost"]) ProbeOutcome.timeout).2.2.1
      ["localhost"] rfl (by decide),
   (verify_badBody_amended (BodyUrl.arr ["https://example.com"]) ProbeOutcome.netError).2.2.2
      ["https://example.com"] rfl (by decide),
   (verify_badBody_amended (BodyUrl.arr ["https://example.com"]) ProbeOutcome.netError).1⟩

/-- C4: for every platform parser and every string, `validateUrlFormat`
rejects whitespace-only input, parse failures, non-http(s) schemes, dotless
hosts, and hosts whose final label is shorter than two characters; and it
accepts "https://example.com" whenever the parser parses it the way the
WHATWG parser does. -/
theorem validateUrlFormat_qualifier (parseURL : String → Option URLParts) :
    (∀ s, jsTrim s = "" → validateUrlFormat parseURL s = false) ∧
    (∀ s, parseURL s = none → validateUrlFormat parseURL s = false) ∧
    (∀ s u, parseURL s = some u → u.protocol ≠ "http:" → u.protocol ≠ "https:" →
      validateUrlFormat parseURL s = false) ∧
    (∀ s u, parseURL s = some u → u.hostname.data.contains '.' = false →
      validateUrlFormat parseURL s = false) ∧
    (∀ s u, parseURL s = some u →
      ((splitOnChar '.' u.hostname.data).getLastD []).length < 2 →
      validateUrlFormat parseURL s = false) ∧
    (parseURL "https://example.com" = some { protocol := "https:", hostname := "example.com" } →
      validateUrlFormat parseURL "https://example.com" = true) := by
  refine ⟨?_, ?_, ?_, ?_, ?_, ?_⟩
  · intro s h
    simp [validateUrlFormat, h]
  · intro s h
    unfold validateUrlFormat
    split
    · rfl
    · simp [h]
  · intro s u hu hp1 hp2
    unfold validateUrlFormat
    split
    · rfl
    · simp [hu, hp1, hp2]
  · intro s u hu hc
    unfold validateUrlFormat
    split
    · rfl
    · simp only [hu]
      split
      · rfl
      · simp only [hc]
        simp
  · intro s u hu hlen
    unfold validateUrlFormat
    split
    · rfl
    · simp only [hu]
      split
      · rfl
      · split
        · rfl
        · simp [hlen]
  · intro h6
    unfold validateUrlFormat
    rw [if_neg (by decide : ¬(jsTrim "https://example.com" = ""))]
    simp only [h6]
    decide

/-- Witness for C4: each rejection clause and the acceptance clause applied
to a concrete string under the concrete parser `sampleParse`. -/
theorem validateUrlFormat_qualifier_witness :
    validateUrlFormat sampleParse "   " = false ∧
    validateUrlFormat sampleParse "no-url" = false ∧
    validateUrlFormat sampleParse "ftp://example.com" = false ∧
    validateUrlFormat sampleParse "http://intranet" = false ∧
    validateUrlFormat sampleParse "http://example.c" = false ∧
    validateUrlFormat sampleParse "https://example.com" = true :=
  ⟨(validateUrlFormat_qualifier sampleParse).1 "   " (by decide),
   (validateUrlFormat_qualifier sampleParse).2.1 "no-url" (by decide),
   (validateUrlFormat_qualifier sampleParse).2.2.1 "ftp://example.com"
     { protocol := "ftp:", hostname := "example.com" } (by decide) (by decide) (by decide),
   (validateUrlFormat_qualifier sampleParse).2.2.2.1 "http://intranet"
     { protocol := "http:", hostname := "intranet" } (by decide) (by decide),
   (validateUrlFormat_qualifier sampleParse).2.2.2.2.1 "http://example.c"
     { protocol := "http:", hostname := "example.c" } (by decide) (by decide),
   (validateUrlFormat_qualifier sampleParse).2.2.2.2.2 (by decide)⟩

/-- C6: the prober endpoint answers HTTP 200 on every path; when a
response arrives (and the local-skip guard did not fire), `reachable`
holds exactly for statuses in [200, 400); timeouts and other network
failures both yield `reachable = false` but with distinct messages, the
latter additionally flagged with a warning. -/
theorem verify_prober_contract (url : String) (net : ProbeOutcome) :
    (verifyPOSTCore url net).httpStatus = 200 ∧
    (isLocalSkip url = false →
      (∀ s : Nat, net = ProbeOutcome.resp s →
        ((verifyPOSTCore url net).reachable = true ↔ (200 ≤ s ∧ s < 400))) ∧
      (net = ProbeOutcome.timeout →
        (verifyPOSTCore url net).reachable = false ∧
        (verifyPOSTCore url net).message = "Timeout - URL took too long to respond") ∧
      (net = ProbeOutcome.netError →
        (verifyPOSTCore url net).reachable = false ∧
        (verifyPOSTCore url net).message = "Could not verify URL (CORS, DNS, or network error)" ∧
        (verifyPOSTCore url net).warning = some "URL may be valid but unreachable from server") ∧
      (verifyPOSTCore url ProbeOutcome.timeout).message ≠
        (verifyPOSTCore url ProbeOutcome.netError).message) := by
  constructor
  · by_cases hl : isLocalSkip url <;> cases net <;>
      simp [verifyPOSTCore, fetchRespond, hl]
  · intro hl
    refine ⟨?_, ?_, ?_, ?_⟩
    · intro s hs
      subst hs
      simp [verifyPOSTCore, fetchRespond, hl]
    · intro hs
      subst hs
      simp [verifyPOSTCore, fetchRespond, hl]
    · intro hs
      subst hs
      simp [verifyPOSTCore, fetchRespond, hl]
    · simp [verifyPOSTCore, fetchRespond, hl]

/-- Witness for C6 at a non-local URL: the three network outcomes of a
probe of "https://example.com". -/
theorem verify_prober_contract_witness :
    ((verifyPOSTCore "https://example.com" (ProbeOutcome.resp 301)).reachable = true ↔
      (200 ≤ 301 ∧ 301 < 400)) ∧
    ((verifyPOSTCore "https://example.com" ProbeOutcome.timeout).reachable = false ∧
      (verifyPOSTCore "https://example.com" ProbeOutcome.timeout).message =
        "Timeout - URL took too long to respond") ∧
    (verifyPOSTCore "https://example.com" ProbeOutcome.timeout).message ≠
      (verifyPOSTCore "https://example.com" ProbeOutcome.netError).message :=
  ⟨((verify_prober_contract "https://example.com" (ProbeOutcome.resp 301)).2
      (by decide)).1 301 rfl,
   ((verify_prober_contract "https://example.com" ProbeOutcome.timeout).2
      (by decide)).2.1 rfl,
   ((verify_prober_contract "https://example.com" ProbeOutcome.timeout).2
      (by decide)).2.2.2⟩

/-- C5 counterexample: the claim reads the special case as host-based, but
the handler tests substring inclusion over the whole URL string.  The URL
"https://example.com/localhost" has host "example.com", which is not a
loopback/private host, yet the handler skips the probe (and reports it
reachable). -/
theorem verify_localskip_cex :
    ¬ (∀ (url : String) (net : ProbeOutcome),
        (hostIsPrivate (hostOf url) = true →
          verifyPOSTCore url net =
            { httpStatus := 200, reachable := true, status := none,
              message := "Local URL - skipped verification", warning := none } ∧
          probeIssued url = false) ∧
        (hostIsPrivate (hostOf url) = false → probeIssued url = true)) := by
  intro h
  have h2 := (h "https://example.com/localhost" ProbeOutcome.timeout).2 (by decide)
  exact absurd h2 (by decide)

/-- C5 amended: the handler returns `reachable = true` without probing
exactly when the URL string contains "localhost", "127.0.0.1" or
"192.168." as a substring (which in particular covers every URL whose
host is such a host); all other URLs are probed. -/
theorem verify_localskip_amended (url : String) (net : ProbeOutcome) :
    (isLocalSkip url = true →
      verifyPOSTCore url net =
        { httpStatus := 200, reachable := true, status := none,
          message := "Local URL - skipped verification", warning := none } ∧
      probeIssued url = false) ∧
    (isLocalSkip url = false → probeIssued url = true) := by
  constructor
  · intro h
    exact ⟨by simp [verifyPOSTCore, h], by simp [probeIssued, h]⟩
  · intro h
    simp [probeIssued, h]

/-- Witness for the amended C5: a loopback URL is skipped, a public URL is
probed. -/
theorem verify_localskip_amended_witness :
    (verifyPOSTCore "http://localhost:3000/x" ProbeOutcome.netError =
      { httpStatus := 200, reachable := true, status := none,
        message := "Local URL - skipped verification", warning := none } ∧
      probeIssued "http://localhost:3000/x" = false) ∧
    probeIssued "https://example.com" = true :=
  ⟨(verify_localskip_amended "http://localhost:3000/x" ProbeOutcome.netError).1 (by decide),
   (verify_localskip_amended "https://example.com" ProbeOutcome.netError).2 (by decide)⟩

/-- C7 counterexample: the cursor invariant fails on reachable states.
Starting empty, a reload with two rows, one rotation right (cursor 1) and
a reload with one row (the shrink after a delete) leaves cursor 1 over a
one-element list — past the end. -/
theorem carousel_cursor_cex :
    ¬ (∀ st : CarouselSt, CarouselReachable st → st.items ≠ [] →
        0 ≤ st.selectedIndex ∧ st.selectedIndex < st.items.length) := by
  intro h
  have h0 := CarouselReachable.init
  have h1 := CarouselReachable.load _ [sampleBookmark 1, sampleBookmark 2] h0
  have h2 := CarouselReachable.rotate _ Dir.right h1
  have h3 := CarouselReachable.load _ [sampleBookmark 1] h2
  have hst :
      loadSet (rotateCarousel
        (loadSet { items := [], selectedIndex := 0 }
          [sampleBookmark 1, sampleBookmark 2]) Dir.right) [sampleBookmark 1] =
      { items := [sampleBookmark 1], selectedIndex := 1 } := by
    decide
  rw [hst] at h3
  have h4 := h _ h3 (by simp)
  exact absurd h4 (by decide)

/-- C7 amended: `load()` replaces the list and never touches the cursor,
so no re-clamping happens on shrink and the cursor can be left past the
new end; rotation does keep an in-range cursor in range while the list is
unchanged; and in the cited scenario — deleting the selected item of a
one-element list followed by the reload — the cursor stays 0 over the
empty list, the carousel's empty-list rendering state. -/
theorem carousel_cursor_amended :
    (∀ (st : CarouselSt) (newItems : List Bookmark),
      loadSet st newItems = { items := newItems, selectedIndex := st.selectedIndex }) ∧
    (∀ (st : CarouselSt) (dir : Dir), st.items ≠ [] →
      0 ≤ st.selectedIndex → st.selectedIndex < st.items.length →
      0 ≤ (rotateCarousel st dir).selectedIndex ∧
        (rotateCarousel st dir).selectedIndex < st.items.length) ∧
    (∀ b : Bookmark,
      loadSet { items := [b], selectedIndex := 0 } [] =
        { items := [], selectedIndex := 0 }) := by
  refine ⟨?_, ?_, ?_⟩
  · intro st newItems
    rfl
  · intro st dir hne h0 hlt
    have hlen : 0 < (st.items.length : Int) := by
      exact_mod_cast List.length_pos.mpr hne
    cases dir <;> simp only [rotateCarousel] <;> split <;> omega
  · intro b
    rfl

/-- Witness for the amended C7: a reload that shrinks the list to one row
keeps the cursor, a rotation on a two-row list stays in range, and the
delete-from-one scenario lands on the empty-list state. -/
theorem carousel_cursor_amended_witness :
    loadSet { items := [sampleBookmark 1, sampleBookmark 2], selectedIndex := 1 } [sampleBookmark 1] =
      { items := [sampleBookmark 1], selectedIndex := 1 } ∧
    (0 ≤ (rotateCarousel { items := [sampleBookmark 1, sampleBookmark 2], selectedIndex := 0 } Dir.right).selectedIndex ∧
      (rotateCarousel { items := [sampleBookmark 1, sampleBookmark 2], selectedIndex := 0 } Dir.right).selectedIndex <
        ([sampleBookmark 1, sampleBookmark 2] : List Bookmark).length) ∧
    loadSet { items := [sampleBookmark 1], selectedIndex := 0 } [] =
      { items := [], selectedIndex := 0 } :=
  ⟨carousel_cursor_amended.1
      { items := [sampleBookmark 1, sampleBookmark 2], selectedIndex := 1 }
      [sampleBookmark 1],
   carousel_cursor_amended.2.1
      { items := [sampleBookmark 1, sampleBookmark 2], selectedIndex := 0 }
      Dir.right (by decide) (by decide) (by decide),
   carousel_cursor_amended.2.2 (sampleBookmark 1)⟩

/-- C9 counterexample: the claim says every field with no extracted
metadata defaults to the empty string, but when no image is found the
handler substitutes a screenshot-service URL.  A 200 response whose page
yields no metadata at all produces a record whose image field is
non-empty. -/
theorem preview_empty_default_cex :
    ¬ (∀ (origin : String → String) (resolveUrl : String → String → String)
         (enc : String → String) (u : String) (outcome : FetchOutcome),
        u ≠ "" →
        ((outcome = FetchOutcome.timeout →
           fetchPreviewPOST origin resolveUrl enc (some u) outcome =
             PreviewResult.err 408 "Timeout - page took too long to load") ∧
         (∀ status meta, outcome = FetchOutcome.resp status meta →
           ((status < 200 ∨ 300 ≤ status) →
             ∃ st msg, fetchPreviewPOST origin resolveUrl enc (some u) outcome =
               PreviewResult.err st msg) ∧
           (200 ≤ status → status < 300 →
             ∃ d, fetchPreviewPOST origin resolveUrl enc (some u) outcome =
                 PreviewResult.ok d ∧
               (meta.ogTitle = none → meta.twitterTitle = none → meta.docTitle = "" →
                 d.title = "") ∧
               (meta.ogDescription = none → meta.twitterDescription = none →
                 meta.metaDescription = none → d.description = "") ∧
               (meta.ogImage = none → meta.twitterImage = none → d.image = "") ∧
               (meta.iconHref = none → meta.shortcutIconHref = none →
                 meta.appleTouchIconHref = none → d.favicon = ""))))) := by
  intro h
  have h1 := ((h (fun _ => "") (fun _ b => b) (fun s => s) "https://example.com"
      (FetchOutcome.resp 200 emptyMeta) (by decide)).2 200 emptyMeta rfl).2
      (by omega) (by omega)
  obtain ⟨d, hd, _, _, himg, _⟩ := h1
  have h2 : d.image = "" := himg rfl rfl
  have h3 : fetchPreviewPOST (fun _ => "") (fun _ b => b) (fun s => s)
      (some "https://example.com") (FetchOutcome.resp 200 emptyMeta) =
      PreviewResult.ok
        { title := "", description := "",
          image := "https://api.screenshotmachine.com/?key=YOUR_API_KEY&url=https://example.com&dimension=1024x768",
          favicon := "" } := by decide
  rw [h3] at hd
  have h4 := PreviewResult.ok.inj hd
  rw [← h4] at h2
  exact absurd h2 (by decide)

/-- C9 amended: the handler returns either a structured error — 400 for a
missing url or a non-2xx upstream status, 408 exactly for timeout, 500 for
other network failures — or a full metadata record in which title,
description and favicon default to the empty string when nothing was
extracted, while a missing image defaults to a screenshot-service URL
derived from the bookmark URL (never the empty string). -/
theorem preview_contract (origin : String → String)
    (resolveUrl : String → String → String) (enc : String → String)
    (u : String) (outcome : FetchOutcome) (hu : u ≠ "") :
    (outcome = FetchOutcome.timeout →
      fetchPreviewPOST origin resolveUrl enc (some u) outcome =
        PreviewResult.err 408 "Timeout - page took too long to load") ∧
    (∀ st msg, fetchPreviewPOST origin resolveUrl enc (some u) outcome =
        PreviewResult.err st msg →
      (st = 408 ↔ outcome = FetchOutcome.timeout)) ∧
    (∀ status meta, outcome = FetchOutcome.resp status meta →
      status < 200 ∨ 300 ≤ status →
      fetchPreviewPOST origin resolveUrl enc (some u) outcome =
        PreviewResult.err 400 ("Failed to fetch: " ++ toString status)) ∧
    (∀ status meta, outcome = FetchOutcome.resp status meta →
      200 ≤ status → status < 300 →
      fetchPreviewPOST origin resolveUrl enc (some u) outcome =
        PreviewResult.ok (previewSuccessData origin resolveUrl enc u meta)) ∧
    (∀ meta : ExtractedMeta,
      (meta.ogTitle = none → meta.twitterTitle = none → meta.docTitle = "" →
        (previewSuccessData origin resolveUrl enc u meta).title = "") ∧
      (meta.ogDescription = none → meta.twitterDescription = none →
        meta.metaDescription = none →
        (previewSuccessData origin resolveUrl enc u meta).description = "") ∧
      (meta.iconHref = none → meta.shortcutIconHref = none →
        meta.appleTouchIconHref = none →
        (previewSuccessData origin resolveUrl enc u meta).favicon = "") ∧
      (meta.ogImage = none → meta.twitterImage = none →
        (previewSuccessData origin resolveUrl enc u meta).image =
          "https://api.screenshotmachine.com/?key=YOUR_API_KEY&url="
            ++ enc u ++ "&dimension=1024x768")) := by
  refine ⟨?_, ?_, ?_, ?_, ?_⟩
  · intro ho
    subst ho
    simp [fetchPreviewPOST, hu]
  · intro st msg hres
    cases outcome with
    | timeout =>
      simp [fetchPreviewPOST, hu] at hres
      simp [hres.1]
    | netError =>
      simp [fetchPreviewPOST, hu] at hres
      rw [← hres.1]
      simp
    | resp status meta =>
      by_cases hok : status < 200 ∨ 300 ≤ status
      · simp [fetchPreviewPOST, hu, hok] at hres
        rw [← hres.1]
        simp
      · simp [fetchPreviewPOST, hu, hok] at hres
  · intro status meta ho hbad
    subst ho
    simp [fetchPreviewPOST, hu, hbad]
  · intro status meta ho h2a h2b
    subst ho
    have hok : ¬(status < 200 ∨ 300 ≤ status) := by omega
    simp [fetchPreviewPOST, hu, hok]
  · intro meta
    refine ⟨?_, ?_, ?_, ?_⟩
    · intro h1 h2 h3
      simp [previewSuccessData, jsOrS, h1, h2, h3]
    · intro h1 h2 h3
      simp [previewSuccessData, jsOrS, h1, h2, h3]
    · intro h1 h2 h3
      simp [previewSuccessData, jsOrS, h1, h2, h3]
    · intro h1 h2
      simp [previewSuccessData, jsOrS, h1, h2]

/-- Witness for the amended C9 at a concrete URL, platform functions and a
metadata-free 200 response. -/
theorem preview_contract_witness :
    fetchPreviewPOST (fun _ => "") (fun _ b => b) (fun s => s)
        (some "https://example.com") FetchOutcome.timeout =
      PreviewResult.err 408 "Timeout - page took too long to load" ∧
    fetchPreviewPOST (fun _ => "") (fun _ b => b) (fun s => s)
        (some "https://example.com") (FetchOutcome.resp 200 emptyMeta) =
      PreviewResult.ok (previewSuccessData (fun _ => "") (fun _ b => b)
        (fun s => s) "https://example.com" emptyMeta) ∧
    (previewSuccessData (fun _ => "") (fun _ b => b) (fun s => s)
        "https://example.com" emptyMeta).image =
      "https://api.screenshotmachine.com/?key=YOUR_API_KEY&url="
        ++ "https://example.com" ++ "&dimension=1024x768" :=
  ⟨(preview_contract (fun _ => "") (fun _ b => b) (fun s => s)
      "https://example.com" FetchOutcome.timeout (by decide)).1 rfl,
   (preview_contract (fun _ => "") (fun _ b => b) (fun s => s)
      "https://example.com" (FetchOutcome.resp 200 emptyMeta) (by decide)).2.2.2.1
      200 emptyMeta rfl (by omega) (by omega),
   ((preview_contract (fun _ => "") (fun _ b => b) (fun s => s)
      "https://example.com" (FetchOutcome.resp 200 emptyMeta) (by decide)).2.2.2.2
      emptyMeta).2.2.2 rfl rfl⟩

/-! ### Helper lemmas about the toast event fold -/

/-- Folding more events over an already-found event never loses it: the
result is some event at least as late. -/
theorem lastEventStep_mono (t : Nat) :
    ∀ (evs : List (Nat × Option String)) (a : Nat × Option String),
      ∃ b, evs.foldl (lastEventStep t) (some a) = some b ∧ a.1 ≤ b.1 := by
  intro evs
  induction evs with
  | nil =>
    intro a
    exact ⟨a, rfl, le_refl _⟩
  | cons e rest ih =>
    intro a
    have hstep : ∃ a2, lastEventStep t (some a) e = some a2 ∧ a.1 ≤ a2.1 := by
      by_cases h1 : e.1 ≤ t
      · by_cases h2 : a.1 ≤ e.1
        · exact ⟨e, by simp [lastEventStep, h1, h2], h2⟩
        · exact ⟨a, by simp [lastEventStep, h1, h2], le_refl _⟩
      · exact ⟨a, by simp [lastEventStep, h1], le_refl _⟩
    obtain ⟨a2, ha2, haa⟩ := hstep
    rw [List.foldl_cons, ha2]
    obtain ⟨b, hb, hab⟩ := ih a2
    exact ⟨b, hb, le_trans haa hab⟩

/-- Soundness of the fold: a produced event is the accumulator or one of
the scanned events, and is not after `t`. -/
theorem lastEventAt_mem_aux (t : Nat) :
    ∀ (evs : List (Nat × Option String)) (acc : Option (Nat × Option String))
      (r : Nat × Option String),
      evs.foldl (lastEventStep t) acc = some r →
      acc = some r ∨ (r ∈ evs ∧ r.1 ≤ t) := by
  intro evs
  induction evs with
  | nil =>
    intro acc r h
    exact Or.inl h
  | cons e rest ih =>
    intro acc r h
    rw [List.foldl_cons] at h
    rcases ih (lastEventStep t acc e) r h with h1 | h1
    · by_cases h2 : e.1 ≤ t
      · cases acc with
        | none =>
          have he : some e = some r := by simpa [lastEventStep, h2] using h1
          cases Option.some.inj he
          exact Or.inr ⟨List.mem_cons_self e rest, h2⟩
        | some b =>
          by_cases h3 : b.1 ≤ e.1
          · have he : some e = some r := by simpa [lastEventStep, h2, h3] using h1
            cases Option.some.inj he
            exact Or.inr ⟨List.mem_cons_self e rest, h2⟩
          · have hb : some b = some r := by simpa [lastEventStep, h2, h3] using h1
            exact Or.inl hb
      · have hacc : acc = some r := by simpa [lastEventStep, h2] using h1
        exact Or.inl hacc
    · exact Or.inr ⟨List.mem_cons_of_mem e h1.1, h1.2⟩

/-- Dominance of the fold: any scanned event not after `t` is dominated by
the produced event. -/
theorem lastEventAt_dom_aux (t : Nat) :
    ∀ (evs : List (Nat × Option String)) (acc : Option (Nat × Option String))
      (e : Nat × Option String), e ∈ evs → e.1 ≤ t →
      ∃ b, evs.foldl (lastEventStep t) acc = some b ∧ e.1 ≤ b.1 := by
  intro evs
  induction evs with
  | nil =>
    intro acc e he _
    exact absurd he (List.not_mem_nil e)
  | cons a rest ih =>
    intro acc e he het
    rw [List.foldl_cons]
    rcases List.mem_cons.mp he with h1 | h1
    · subst h1
      have hstep : ∃ a2, lastEventStep t acc e = some a2 ∧ e.1 ≤ a2.1 := by
        cases acc with
        | none => exact ⟨e, by simp [lastEventStep, het], le_refl _⟩
        | some b0 =>
          by_cases h3 : b0.1 ≤ e.1
          · exact ⟨e, by simp [lastEventStep, het, h3], le_refl _⟩
          · exact ⟨b0, by simp [lastEventStep, het, h3], le_of_not_le h3⟩
      obtain ⟨a2, ha2, hea⟩ := hstep
      rw [ha2]
      obtain ⟨b, hb, hab⟩ := lastEventStep_mono t rest a2
      exact ⟨b, hb, le_trans hea hab⟩
    · exact ih (lastEventStep t acc a) e h1 het

/-- When one scheduled mutation strictly dominates every other one that is
due by time `t` (all ties carrying the same value), the fold returns it. -/
theorem lastEventAt_eq_of_max (evs : List (Nat × Option String)) (t : Nat)
    (e0 : Nat × Option String) (h0 : e0 ∈ evs) (h0t : e0.1 ≤ t)
    (hmax : ∀ e ∈ evs, e.1 ≤ t → e.1 ≤ e0.1)
    (hval : ∀ e ∈ evs, e.1 ≤ t → e.1 = e0.1 → e.2 = e0.2) :
    lastEventAt evs t = some e0 := by
  obtain ⟨b, hb, hge⟩ := lastEventAt_dom_aux t evs none e0 h0 h0t
  rcases lastEventAt_mem_aux t evs none b hb with hno | ⟨hbm, hbt⟩
  · exact absurd hno (by simp)
  · have h1 : b.1 = e0.1 := le_antisymm (hmax b hbm hbt) hge
    have h2 : b.2 = e0.2 := hval b hbm hbt h1
    obtain ⟨b1, b2⟩ := b
    obtain ⟨e1, e2⟩ := e0
    have h1' : b1 = e1 := h1
    have h2' : b2 = e2 := h2
    subst h1'
    subst h2'
    unfold lastEventAt
    exact hb

/-- Membership characterisation of the scheduled toast mutations. -/
theorem mem_toastEvents {shows : List (Nat × String)} {e : Nat × Option String} :
    e ∈ toastEvents shows ↔
      ∃ p ∈ shows, e = (p.1, some p.2) ∨ e = (p.1 + 4000, (none : Option String)) := by
  simp [toastEvents]

/-- C8 counterexample: `showToast` never clears the previous timer, so a
toast shown while an earlier one is visible is dismissed by the earlier
timer.  Showing "A" at 0 ms and "B" at 2000 ms leaves "B" gone at 4000 ms,
only two seconds after it was shown. -/
theorem showToast_cex :
    ¬ (∀ (shows : List (Nat × String)) (s : Nat) (m : String),
        (s, m) ∈ shows →
        (∀ s' m', (s', m') ∈ shows → (s', m') ≠ (s, m) → s' < s) →
        (∀ t, s ≤ t → t < s + 4000 → toastAt shows t = some m)) := by
  intro h
  have hm : ((2000, "B") : Nat × String) ∈ [((0 : Nat), "A"), (2000, "B")] := by
    decide
  have hlast : ∀ s' m', (s', m') ∈ [((0 : Nat), "A"), (2000, "B")] →
      (s', m') ≠ ((2000 : Nat), "B") → s' < 2000 := by
    intro s' m' hmem hne
    rcases List.mem_cons.mp hmem with h1 | h1
    · rw [Prod.mk.injEq] at h1
      obtain ⟨h1a, _⟩ := h1
      omega
    · exact absurd (List.mem_singleton.mp h1) hne
  have hres := h [((0 : Nat), "A"), (2000, "B")] 2000 "B" hm hlast 4000
    (by omega) (by omega)
  exact absurd hres (by decide)

/-- C8 amended: `showToast` replaces whatever toast is visible and starts
a fresh 4-second timer without cancelling earlier ones.  A toast whose
show time is isolated by more than 4 seconds from every other show is
visible for exactly 4 seconds and dismissed at the 4-second mark; and at
the instant of any latest show (barring a timer firing at that same
instant) the visible toast is that show's message — at most one toast is
ever visible since the model keeps a single slot. -/
theorem showToast_timing_amended :
    (∀ (shows : List (Nat × String)) (s : Nat) (m : String),
      (s, m) ∈ shows →
      (∀ s' m', (s', m') ∈ shows → (s', m') ≠ (s, m) →
        s' + 4000 < s ∨ s + 4000 < s') →
      (∀ t, s ≤ t → t < s + 4000 → toastAt shows t = some m) ∧
        toastAt shows (s + 4000) = none) ∧
    (∀ (shows : List (Nat × String)) (s : Nat) (m : String),
      (s, m) ∈ shows →
      (∀ s' m', (s', m') ∈ shows → (s', m') ≠ (s, m) → s' < s ∧ s' + 4000 ≠ s) →
      toastAt shows s = some m) := by
  constructor
  · intro shows s m hm hiso
    constructor
    · intro t hts htlt
      have hmem : ((s, some m) : Nat × Option String) ∈ toastEvents shows :=
        mem_toastEvents.mpr ⟨(s, m), hm, Or.inl rfl⟩
      have hmax : ∀ e ∈ toastEvents shows, e.1 ≤ t →
          e.1 ≤ ((s, some m) : Nat × Option String).1 := by
        intro e he het
        rcases mem_toastEvents.mp he with ⟨⟨p1, p2⟩, hp, hpe⟩
        by_cases hps : ((p1, p2) : Nat × String) = (s, m)
        · rw [Prod.mk.injEq] at hps
          obtain ⟨rfl, rfl⟩ := hps
          rcases hpe with rfl | rfl
          · simp
          · exfalso
            simp at het
            omega
        · have hcase := hiso p1 p2 hp hps
          rcases hpe with rfl | rfl <;> (simp at het ⊢; omega)
      have hval : ∀ e ∈ toastEvents shows, e.1 ≤ t →
          e.1 = ((s, some m) : Nat × Option String).1 →
          e.2 = ((s, some m) : Nat × Option String).2 := by
        intro e he het heq1
        rcases mem_toastEvents.mp he with ⟨⟨p1, p2⟩, hp, hpe⟩
        by_cases hps : ((p1, p2) : Nat × String) = (s, m)
        · rw [Prod.mk.injEq] at hps
          obtain ⟨rfl, rfl⟩ := hps
          rcases hpe with rfl | rfl
          · rfl
          · exfalso
            simp at heq1
        · have hcase := hiso p1 p2 hp hps
          rcases hpe with rfl | rfl <;> (exfalso; simp at heq1 het; omega)
      have heq := lastEventAt_eq_of_max (toastEvents shows) t (s, some m)
        hmem hts hmax hval
      simp [toastAt, heq]
    · have hmem : ((s + 4000, (none : Option String)) : Nat × Option String) ∈
          toastEvents shows :=
        mem_toastEvents.mpr ⟨(s, m), hm, Or.inr rfl⟩
      have hmax : ∀ e ∈ toastEvents shows, e.1 ≤ s + 4000 →
          e.1 ≤ ((s + 4000, (none : Option String)) : Nat × Option String).1 := by
        intro e _ het
        simpa using het
      have hval : ∀ e ∈ toastEvents shows, e.1 ≤ s + 4000 →
          e.1 = ((s + 4000, (none : Option String)) : Nat × Option String).1 →
          e.2 = ((s + 4000, (none : Option String)) : Nat × Option String).2 := by
        intro e he het heq1
        rcases mem_toastEvents.mp he with ⟨⟨p1, p2⟩, hp, hpe⟩
        by_cases hps : ((p1, p2) : Nat × String) = (s, m)
        · rw [Prod.mk.injEq] at hps
          obtain ⟨rfl, rfl⟩ := hps
          rcases hpe with rfl | rfl
          · exfalso
            simp at heq1
          · rfl
        · have hcase := hiso p1 p2 hp hps
          rcases hpe with rfl | rfl <;> (exfalso; simp at heq1 het; omega)
      have heq := lastEventAt_eq_of_max (toastEvents shows) (s + 4000)
        (s + 4000, none) hmem (le_refl _) hmax hval
      simp [toastAt, heq]
  · intro shows s m hm hlast
    have hmem : ((s, some m) : Nat × Option String) ∈ toastEvents shows :=
      mem_toastEvents.mpr ⟨(s, m), hm, Or.inl rfl⟩
    have hmax : ∀ e ∈ toastEvents shows, e.1 ≤ s →
        e.1 ≤ ((s, some m) : Nat × Option String).1 := by
      intro e _ het
      simpa using het
    have hval : ∀ e ∈ toastEvents shows, e.1 ≤ s →
        e.1 = ((s, some m) : Nat × Option String).1 →
        e.2 = ((s, some m) : Nat × Option String).2 := by
      intro e he het heq1
      rcases mem_toastEvents.mp he with ⟨⟨p1, p2⟩, hp, hpe⟩
      by_cases hps : ((p1, p2) : Nat × String) = (s, m)
      · rw [Prod.mk.injEq] at hps
        obtain ⟨rfl, rfl⟩ := hps
        rcases hpe with rfl | rfl
        · rfl
        · exfalso
          simp at heq1
      · have hcase := hlast p1 p2 hp hps
        rcases hpe with rfl | rfl <;> (exfalso; simp at heq1; omega)
    have heq := lastEventAt_eq_of_max (toastEvents shows) s (s, some m)
      hmem (le_refl _) hmax hval
    simp [toastAt, heq]

/-- Witness for the amended C8: a lone toast at 0 ms is visible at 3999 ms
and gone at 4000 ms; with a second toast at 10000 ms, that second toast is
the one visible at 10000 ms. -/
theorem showToast_timing_amended_witness :
    toastAt [((0 : Nat), "A")] 3999 = some "A" ∧
    toastAt [((0 : Nat), "A")] 4000 = none ∧
    toastAt [((0 : Nat), "A"), (10000, "B")] 10000 = some "B" :=
  ⟨(showToast_timing_amended.1 [((0 : Nat), "A")] 0 "A" (by decide)
      (by intro s' m' hmem hne
          exact absurd (List.mem_singleton.mp hmem) hne)).1 3999
      (by omega) (by omega),
   (showToast_timing_amended.1 [((0 : Nat), "A")] 0 "A" (by decide)
      (by intro s' m' hmem hne
          exact absurd (List.mem_singleton.mp hmem) hne)).2,
   showToast_timing_amended.2 [((0 : Nat), "A"), (10000, "B")] 10000 "B"
      (by decide)
      (by intro s' m' hmem hne
          rcases List.mem_cons.mp hmem with h1 | h1
          · rw [Prod.mk.injEq] at h1
            obtain ⟨h1a, _⟩ := h1
            omega
          · exact absurd (List.mem_singleton.mp h1) hne)⟩

end SmartBookmark
